import Mathlib

/-!
Verification of the Geminya Discord Activity mini-games against their
natural-language specification.

The development shallowly embeds the game-session logic of the repository:
the Anidle router (start_game / make_guess over the in-memory games dict),
the frontend page transitions (GuessOpening, GuessAnime, GuessCharacter),
and the media URL rewriter proxyMediaUrl.  Components whose implementation
is not part of the repository snapshot (the attribute comparator, the
candidate sampler, the staged-reveal and character-guess backend endpoints)
are modelled from the specification; each such definition says so in its
doc comment.
-/

namespace Geminya

/-! ## Anidle game sessions (backend router, routers/anidle.py) -/

/-- One Anidle game session as stored in the router's in-memory games dict:
target anime (represented by its stable id; the stored comparator output per
guess is elided, the comparator being absent from the snapshot), the list of
guessed ids, the attempt budget, the completion and win flags and the hint
penalty. -/
structure AnidleGame where
  targetId : Nat
  guesses : List Nat
  maxGuesses : Nat
  isComplete : Bool
  isWon : Bool
  hintPenalty : Nat
  deriving Repr, DecidableEq

/-- start_game: a fresh session has no guesses, max_guesses = 21, both flags
clear and no hint penalty. -/
def start_game (target : Nat) : AnidleGame :=
  { targetId := target
    guesses := []
    maxGuesses := 21
    isComplete := false
    isWon := false
    hintPenalty := 0 }

/-- make_guess: append the guess, then set is_won and is_complete when the
guessed id equals the target id, else set is_complete when the guess count
plus the hint penalty reaches max_guesses.  The router performs no check of
is_complete before applying the guess. -/
def make_guess (g : AnidleGame) (guessId : Nat) : AnidleGame :=
  let g1 := { g with guesses := g.guesses ++ [guessId] }
  if guessId = g.targetId then
    { g1 with isWon := true, isComplete := true }
  else if g1.maxGuesses ≤ g1.guesses.length + g1.hintPenalty then
    { g1 with isComplete := true }
  else
    g1

/-- guesses_remaining as computed in the make_guess response:
max_guesses - len(guesses) - hint_penalty. -/
def guessesRemaining (g : AnidleGame) : Nat :=
  g.maxGuesses - g.guesses.length - g.hintPenalty

/-- A whole sequence of guesses applied in arrival order. -/
def runGuesses (g : AnidleGame) (gs : List Nat) : AnidleGame :=
  gs.foldl make_guess g

/-! ## The session store around start_game (routers/anidle.py) -/

/-- The router's games dict, modelled as an association list keyed by
game_id. -/
def GameStore := List (String × AnidleGame)

/-- The ids present in the store. -/
def sessionIds (st : GameStore) : List String :=
  st.map Prod.fst

/-- Result of a start request: the store after the request together with the
HTTP-level response (error detail, or the fresh game_id). -/
structure StartOutcome where
  store : GameStore
  response : Except String String

/-- The start_game endpoint around the store: fetching the target can fail
(get_random_anime returning nothing), in which case the router raises
HTTPException before touching the games dict; only on success is the new
session inserted under user_id and timestamp. -/
def startEndpoint (st : GameStore) (userId : String) (ts : Nat)
    (target : Option Nat) : StartOutcome :=
  match target with
  | none => { store := st, response := .error "Failed to fetch anime" }
  | some t =>
      let gid := userId ++ "_" ++ toString ts
      { store := (gid, start_game t) :: st, response := .ok gid }

/-! ## The media URL rewriter (frontend utils/mediaProxy.ts) -/

/-- JavaScript String.startsWith for the pattern list p against the subject
list s. -/
def charsStartWith (p s : List Char) : Bool :=
  match p, s with
  | [], _ => true
  | _ :: _, [] => false
  | a :: ps, b :: ss => a == b && charsStartWith ps ss

/-- JavaScript String.includes: some suffix of s begins with p. -/
def charsInclude (p s : List Char) : Bool :=
  match s with
  | [] => p.isEmpty
  | _ :: rest => charsStartWith p s || charsInclude p rest

/-- url.startsWith(p). -/
def jsStartsWith (url p : String) : Bool :=
  charsStartWith p.data url.data

/-- url.includes(p). -/
def jsIncludes (url p : String) : Bool :=
  charsInclude p.data url.data

/-- The characters encodeURIComponent leaves unescaped: ASCII letters,
digits and - _ . ! ~ * ( ) and the apostrophe (codepoint 39). -/
def uriUnreserved (c : Char) : Bool :=
  ('A' ≤ c && c ≤ 'Z') || ('a' ≤ c && c ≤ 'z') || ('0' ≤ c && c ≤ '9') ||
  c == '-' || c == '_' || c == '.' || c == '!' || c == '~' || c == '*' ||
  c == '(' || c == ')' || c == Char.ofNat 39

/-- Upper-case hexadecimal digit for a value below 16. -/
def hexDigit (n : Nat) : Char :=
  if n < 10 then Char.ofNat (48 + n) else Char.ofNat (55 + n)

/-- One percent-escaped byte, e.g. %2F. -/
def percentByte (b : Nat) : List Char :=
  ['%', hexDigit (b / 16), hexDigit (b % 16)]

/-- The UTF-8 bytes of one character. -/
def utf8Bytes (c : Char) : List Nat :=
  let n := c.toNat
  if n < 128 then [n]
  else if n < 2048 then [192 + n / 64, 128 + n % 64]
  else if n < 65536 then [224 + n / 4096, 128 + (n / 64) % 64, 128 + n % 64]
  else [240 + n / 262144, 128 + (n / 4096) % 64, 128 + (n / 64) % 64, 128 + n % 64]

/-- JavaScript encodeURIComponent: unreserved characters pass through,
every other character is percent-escaped byte by byte. -/
def encodeURIComponent (s : String) : String :=
  ⟨(s.data.map fun c =>
      if uriUnreserved c then [c] else (utf8Bytes c).map percentByte |>.flatten).flatten⟩

/-- proxyMediaUrl from utils/mediaProxy.ts: null, undefined and the empty
string map to the empty string; URLs already proxied or data: URLs are
returned as-is; Discord CDN URLs are allowed directly; every other URL is
rewritten through the backend media proxy.  null and undefined are modelled
by the none case of the Option argument. -/
def proxyMediaUrl (url : Option String) : String :=
  match url with
  | none => ""
  | some u =>
    if u = "" then ""
    else if jsStartsWith u "/api/media/proxy" || jsStartsWith u "data:" then u
    else if jsIncludes u "cdn.discordapp.com" || jsIncludes u "media.discordapp.net" then u
    else "/api/media/proxy?url=" ++ encodeURIComponent u

/-! ## Guess Opening / Ending (frontend pages/GuessOpening.tsx) -/

/-- The fields of the start response that startGame reads into state. -/
structure ThemeStartResponse where
  game_id : String
  theme_type : String
  theme_slug : String
  theme_url : String
  current_stage : Nat
  max_stage : Nat
  deriving Repr, DecidableEq

/-- The field of the reveal response that revealHint reads into state. -/
structure RevealResponse where
  current_stage : Nat
  deriving Repr, DecidableEq

/-- The page's game state for the theme-guessing games. -/
structure OpeningState where
  gameId : String
  themeType : String
  themeSlug : String
  themeUrl : String
  currentStage : Nat
  maxStage : Nat
  isComplete : Bool
  isWon : Bool
  difficulty : String
  deriving Repr, DecidableEq

/-- startGame in GuessOpening.tsx: every read field of the start response,
theme_url included, is stored in the stage-1 state. -/
def startGameOpening (resp : ThemeStartResponse) (difficulty : String) : OpeningState :=
  { gameId := resp.game_id
    themeType := resp.theme_type
    themeSlug := resp.theme_slug
    themeUrl := resp.theme_url
    currentStage := resp.current_stage
    maxStage := resp.max_stage
    isComplete := false
    isWon := false
    difficulty := difficulty }

/-- revealHint in GuessOpening.tsx: only current_stage is taken from the
reveal response; themeUrl is left as delivered by start. -/
def revealHint (s : OpeningState) (resp : RevealResponse) : OpeningState :=
  { s with currentStage := resp.current_stage }

/-- The media element the page renders. -/
inductive MediaElement where
  | audio : String → MediaElement
  | video : String → MediaElement
  deriving Repr, DecidableEq

/-- The page's player: at stage 1 an audio element, otherwise a video
element, both sourcing the proxied themeUrl. -/
def mediaElement (s : OpeningState) : MediaElement :=
  if s.currentStage = 1 then .audio (proxyMediaUrl (some s.themeUrl))
  else .video (proxyMediaUrl (some s.themeUrl))

/-- A concrete start response whose theme_url is a video asset. -/
def exThemeResp : ThemeStartResponse :=
  { game_id := "u1_1000"
    theme_type := "OP"
    theme_slug := "OP1"
    theme_url := "https://v.animethemes.moe/ExampleAnime-OP1.webm"
    current_stage := 1
    max_stage := 2 }

/-- A concrete reveal response advancing to stage 2. -/
def exRevealResp : RevealResponse := { current_stage := 2 }

/-! ## Guess Anime staged reveal (frontend pages/GuessAnime.tsx) -/

/-- The stage-related parts of the Guess Anime page state. -/
structure StagedState where
  totalStages : Nat
  revealedStages : Nat
  currentStage : Nat
  nameHintRevealed : Bool
  attemptsRemaining : Nat
  isComplete : Bool
  deriving Repr, DecidableEq

/-- Modelled from the spec: the revealStage endpoint advances the stage
pointer by one and is absent from the repository snapshot (only its caller
handleStageClick is present); per the spec a reveal past the last stage is
a no-op returning the current state, not an error. -/
def revealStage (s : StagedState) : StagedState :=
  if s.revealedStages < s.totalStages then
    { s with revealedStages := s.revealedStages + 1, currentStage := s.revealedStages + 1 }
  else s

/-- Modelled from the spec: the navigateStage endpoint re-displays a
previously revealed stage without consuming anything; the endpoint itself
is absent from the repository snapshot. -/
def navigateStage (s : StagedState) (n : Nat) : StagedState :=
  if n ≤ s.revealedStages then { s with currentStage := n } else s

/-- handleStageClick in GuessAnime.tsx: nothing happens on a complete game;
a click past the revealed stages calls revealStage, a click on a revealed
stage calls navigateStage. -/
def handleStageClick (s : StagedState) (stage : Nat) : StagedState :=
  if s.isComplete then s
  else if s.revealedStages < stage then revealStage s
  else navigateStage s stage

/-- The stage state right after start: five stages, stage 1 revealed. -/
def initialStagedState : StagedState :=
  { totalStages := 5
    revealedStages := 1
    currentStage := 1
    nameHintRevealed := false
    attemptsRemaining := 1
    isComplete := false }

/-! ## Guess Character (frontend pages/GuessCharacter.tsx and the
multi-card variant) -/

/-- The sampled character + parent anime pair a game is played against. -/
structure CharacterTarget where
  characterName : String
  animeTitle : String
  animeYear : Nat
  characterImage : String
  deriving Repr, DecidableEq

/-- Modelled from the spec: normalized-equal matching for names,
case- and whitespace-insensitive. -/
def normName (s : String) : String :=
  s.trim.toLower

/-- Normalized equality of two names. -/
def normEq (a b : String) : Bool :=
  normName a == normName b

/-- The guess response fields the page reads. -/
structure CharacterGuessResult where
  character_correct : Bool
  anime_correct : Bool
  is_won : Bool
  is_complete : Bool
  deriving Repr, DecidableEq

/-- Modelled from the spec: the Dual-Field-Single-Shot guess endpoint
(absent from the repository snapshot) evaluates both fields independently
against the target, marks win only if both match, and always completes the
session. -/
def guess_character (target : CharacterTarget) (characterName animeName : String) :
    CharacterGuessResult :=
  let cc := normEq characterName target.characterName
  let ac := normEq animeName target.animeTitle
  { character_correct := cc
    anime_correct := ac
    is_won := cc && ac
    is_complete := true }

/-- The single-card page state affected by a guess. -/
structure CharGameState where
  gameId : String
  isComplete : Bool
  isWon : Bool
  characterCorrect : Bool
  animeCorrect : Bool
  deriving Repr, DecidableEq

/-- makeGuess in pages/GuessCharacter.tsx: the page copies is_complete,
is_won and the per-field flags from the response. -/
def applyGuessResult (s : CharGameState) (r : CharacterGuessResult) : CharGameState :=
  { s with
    isComplete := r.is_complete
    isWon := r.is_won
    characterCorrect := r.character_correct
    animeCorrect := r.anime_correct }

/-- makeGuess in the multi-card variant: after all cards receive their
result the game is complete and won exactly when the number of winning
cards equals the number of cards. -/
def multiCardOutcome (results : List CharacterGuessResult) : Bool × Bool :=
  (true, decide ((results.countP fun r => r.is_won) = results.length))

/-! ## The attribute comparator (compare_anime, absent from the snapshot) -/

/-- A per-attribute comparison verdict. -/
inductive Verdict where
  | exact : Verdict
  | targetHigher : Verdict
  | targetLower : Verdict
  | noMatch : Verdict
  deriving Repr, DecidableEq

/-- The ordinal attributes of an entity record; absence of a value is
representable and never coerced to a default. -/
structure EntityRecord where
  id : Nat
  year : Option Nat
  score : Option Nat
  episodes : Option Nat
  deriving Repr, DecidableEq

/-- Modelled from the spec: compare_anime is called by the Anidle router
but its definition is not in the repository snapshot.  An ordinal attribute
compares exact if equal, else target-higher / target-lower from the
target's perspective relative to the guess; a missing value on either side
is no-match, never an error. -/
def compareOrdinal (guessVal targetVal : Option Nat) : Verdict :=
  match guessVal, targetVal with
  | some g, some t =>
      if g = t then .exact
      else if g < t then .targetHigher
      else .targetLower
  | _, _ => .noMatch

/-- A concrete record with every ordinal attribute present. -/
def exRecordA : EntityRecord :=
  { id := 1, year := some 2010, score := some 82, episodes := some 12 }

/-- A second concrete record with every ordinal attribute present. -/
def exRecordB : EntityRecord :=
  { id := 2, year := some 2016, score := some 75, episodes := some 24 }

/-! ## The candidate sampler (backend services, absent from the snapshot) -/

/-- Result of a sampling run: a playable candidate, or exhaustion, with the
number of draws performed. -/
inductive SampleOutcome (α : Type) where
  | success : α → Nat → SampleOutcome α
  | exhausted : Nat → SampleOutcome α
  deriving Repr, DecidableEq

/-- Modelled from the spec: the sampler loop is absent from the repository
snapshot (the deployment guide only reports its message "No themes found
after 5 attempts"); it draws one candidate per iteration, returns the first
that satisfies the asset contract, and gives up when the attempt budget
runs out, counting the draws it used. -/
def sampleLoop {α : Type} (draw : Nat → α) (valid : α → Bool) :
    Nat → Nat → SampleOutcome α
  | 0, used => .exhausted used
  | n + 1, used =>
      let c := draw used
      if valid c then .success c (used + 1)
      else sampleLoop draw valid n (used + 1)

/-- The fixed attempt ceiling, per the "No themes found after 5 attempts"
message. -/
def sampleAttemptCeiling : Nat := 5

/-- One sampling run from a fresh draw counter. -/
def sample {α : Type} (draw : Nat → α) (valid : α → Bool) : SampleOutcome α :=
  sampleLoop draw valid sampleAttemptCeiling 0

end Geminya

namespace Geminya

/-! ## Run lemmas for Anidle -/

/-- Applying one non-winning guess: the flags and counters evolve exactly as
make_guess writes them. -/
theorem make_guess_nonwinning (g : AnidleGame) (x : Nat) (hx : x ≠ g.targetId) :
    (make_guess g x).targetId = g.targetId ∧
    (make_guess g x).isWon = g.isWon ∧
    (make_guess g x).guesses.length = g.guesses.length + 1 ∧
    (make_guess g x).hintPenalty = g.hintPenalty ∧
    (make_guess g x).maxGuesses = g.maxGuesses ∧
    (make_guess g x).isComplete =
      (g.isComplete || decide (g.maxGuesses ≤ g.guesses.length + 1 + g.hintPenalty)) := by
  unfold make_guess
  simp only [if_neg hx]
  by_cases h : g.maxGuesses ≤ g.guesses.length + 1 + g.hintPenalty
  · simp [h]
  · simp [h]

/-- Invariant of the router loop: an incomplete session never has its budget
already exhausted. -/
def BudgetInv (g : AnidleGame) : Prop :=
  g.isComplete = false → g.guesses.length + g.hintPenalty < g.maxGuesses

theorem make_guess_budgetInv (g : AnidleGame) (x : Nat) (hx : x ≠ g.targetId)
    (_ : BudgetInv g) : BudgetInv (make_guess g x) := by
  intro hc
  obtain ⟨-, -, h3, h4, h5, h6⟩ := make_guess_nonwinning g x hx
  rw [h3, h4, h5]
  rw [h6] at hc
  rcases Bool.or_eq_false_iff.mp hc with ⟨-, h⟩
  simpa using of_decide_eq_false h

/-- A run of non-winning guesses never wins, grows the guess list by its
length, and completes exactly when the total count reaches the budget. -/
theorem runGuesses_nonwinning (gs : List Nat) (g : AnidleGame)
    (hW : g.isWon = false)
    (hne : ∀ x ∈ gs, x ≠ g.targetId)
    (hinv : BudgetInv g) :
    (runGuesses g gs).isWon = false ∧
    (runGuesses g gs).guesses.length = g.guesses.length + gs.length ∧
    (runGuesses g gs).hintPenalty = g.hintPenalty ∧
    (runGuesses g gs).maxGuesses = g.maxGuesses ∧
    (runGuesses g gs).isComplete =
      (g.isComplete || decide (g.maxGuesses ≤ g.guesses.length + gs.length + g.hintPenalty)) := by
  induction gs generalizing g with
  | nil =>
      refine ⟨hW, by simp [runGuesses], rfl, rfl, ?_⟩
      by_cases hc : g.isComplete = true
      · simp [runGuesses, hc]
      · have hc' : g.isComplete = false := by simpa using hc
        have := hinv hc'
        simp [runGuesses, hc']
        omega
  | cons x xs ih =>
      have hx : x ≠ g.targetId := hne x (List.mem_cons_self x xs)
      obtain ⟨e1, e2, e3, e4, e5, e6⟩ := make_guess_nonwinning g x hx
      have hW' : (make_guess g x).isWon = false := by rw [e2, hW]
      have hne' : ∀ y ∈ xs, y ≠ (make_guess g x).targetId := by
        intro y hy
        rw [e1]
        exact hne y (List.mem_cons_of_mem x hy)
      have hinv' : BudgetInv (make_guess g x) := make_guess_budgetInv g x hx hinv
      have hrun : runGuesses g (x :: xs) = runGuesses (make_guess g x) xs := rfl
      obtain ⟨f1, f2, f3, f4, f5⟩ := ih (make_guess g x) hW' hne' hinv'
      rw [hrun]
      refine ⟨f1, ?_, ?_, ?_, ?_⟩
      · rw [f2, e3]
        simp
        omega
      · rw [f3, e4]
      · rw [f4, e5]
      · rw [f5, e6, e3, e4, e5]
        by_cases h1 : g.maxGuesses ≤ g.guesses.length + 1 + g.hintPenalty
        · have h2 : g.maxGuesses ≤ g.guesses.length + 1 + xs.length + g.hintPenalty := by omega
          simp [h1, h2]
          exact Or.inr (by omega)
        · by_cases h2 : g.maxGuesses ≤ g.guesses.length + 1 + xs.length + g.hintPenalty
          · simp [h1, h2]
            exact Or.inr (by omega)
          · simp [h1, h2]
            intro h
            exact absurd h (by omega)

/-- C1: starting an Anidle game yields exactly 21 remaining attempts; a run
of 21 non-winning guesses leaves the session complete and not won
(Complete-Lost); a winning guess on the first attempt sets is_won and
is_complete with 20 attempts unused. -/
theorem anidle_attempt_budget (t : Nat) (gs : List Nat)
    (hlen : gs.length = 21) (hne : ∀ x ∈ gs, x ≠ t) :
    guessesRemaining (start_game t) = 21 ∧
    (runGuesses (start_game t) gs).isComplete = true ∧
    (runGuesses (start_game t) gs).isWon = false ∧
    (make_guess (start_game t) t).isWon = true ∧
    (make_guess (start_game t) t).isComplete = true ∧
    guessesRemaining (make_guess (start_game t) t) = 20 := by
  have hne' : ∀ x ∈ gs, x ≠ (start_game t).targetId := by
    simpa [start_game] using hne
  have hinv : BudgetInv (start_game t) := by
    intro _
    simp [start_game]
  obtain ⟨w1, -, -, -, w5⟩ :=
    runGuesses_nonwinning gs (start_game t) (by simp [start_game]) hne' hinv
  refine ⟨by simp [guessesRemaining, start_game], ?_, w1, ?_, ?_, ?_⟩
  · rw [w5]
    simp [start_game, hlen]
  · simp [make_guess, start_game]
  · simp [make_guess, start_game]
  · simp [make_guess, start_game, guessesRemaining]

/-- Witness for C1 at a concrete game: target id 0, twenty-one guesses of
id 1. -/
theorem anidle_attempt_budget_witness :
    guessesRemaining (start_game 0) = 21 ∧
    (runGuesses (start_game 0) (List.replicate 21 1)).isComplete = true ∧
    (runGuesses (start_game 0) (List.replicate 21 1)).isWon = false ∧
    (make_guess (start_game 0) 0).isWon = true ∧
    (make_guess (start_game 0) 0).isComplete = true ∧
    guessesRemaining (make_guess (start_game 0) 0) = 20 :=
  anidle_attempt_budget 0 (List.replicate 21 1) (by decide) (by decide)

/-- C3 (code behaviour at the failing input): a session that ended
Complete-Lost after 21 wrong guesses still accepts a further guess; the
guess is appended (the record grows to 22) and a correct guess even flips
is_won to true, resurrecting the outcome. -/
theorem anidle_complete_not_rejected :
    (runGuesses (start_game 7) (List.replicate 21 3)).isComplete = true ∧
    (runGuesses (start_game 7) (List.replicate 21 3)).isWon = false ∧
    (make_guess (runGuesses (start_game 7) (List.replicate 21 3)) 7).isWon = true ∧
    (make_guess (runGuesses (start_game 7) (List.replicate 21 3)) 7).isComplete = true ∧
    (make_guess (runGuesses (start_game 7) (List.replicate 21 3)) 7).guesses.length = 22 := by
  decide

/-- C8: a start request whose sampling phase fails (no target fetched)
creates no session: the store is returned untouched, its id set unchanged,
and the response is the router's error detail. -/
theorem start_failure_no_session (st : GameStore) (userId : String) (ts : Nat) :
    (startEndpoint st userId ts none).store = st ∧
    sessionIds (startEndpoint st userId ts none).store = sessionIds st ∧
    (startEndpoint st userId ts none).response = .error "Failed to fetch anime" :=
  ⟨rfl, rfl, rfl⟩

/-! ## Lemmas for the media URL rewriter -/

/-- startsWith is preserved by extending the subject on the right. -/
theorem charsStartWith_append (p l e : List Char) (h : charsStartWith p l = true) :
    charsStartWith p (l ++ e) = true := by
  induction p generalizing l with
  | nil => rfl
  | cons a ps ih =>
      cases l with
      | nil => simp [charsStartWith] at h
      | cons b ls =>
          simp only [List.cons_append]
          simp only [charsStartWith, Bool.and_eq_true, beq_iff_eq] at h ⊢
          exact ⟨h.1, ih ls h.2⟩

/-- Every rewritten URL starts with the proxy route. -/
theorem rewritten_isProxied (e : String) :
    jsStartsWith ("/api/media/proxy?url=" ++ e) "/api/media/proxy" = true := by
  unfold jsStartsWith
  rw [String.data_append]
  exact charsStartWith_append _ _ _ (by decide)

/-- A rewritten URL is never the empty string. -/
theorem rewritten_ne_empty (e : String) : "/api/media/proxy?url=" ++ e ≠ "" := by
  intro h
  have hd := congrArg String.data h
  rw [String.data_append] at hd
  rcases List.append_eq_nil.mp hd with ⟨h1, -⟩
  exact (by decide : ("/api/media/proxy?url=" : String).data ≠ []) h1

/-- C10: proxyMediaUrl is total and idempotent.  null, undefined and the
empty string map to the empty string; already-proxied URLs, data: URLs and
Discord CDN URLs are returned unchanged; every other URL is rewritten to
the /api/media/proxy?url= form, and reapplying the function changes
nothing. -/
theorem proxyMediaUrl_spec :
    proxyMediaUrl none = "" ∧
    proxyMediaUrl (some "") = "" ∧
    (∀ u, proxyMediaUrl (some (proxyMediaUrl u)) = proxyMediaUrl u) ∧
    (∀ u, u ≠ "" →
      (jsStartsWith u "/api/media/proxy" = true ∨ jsStartsWith u "data:" = true) →
      proxyMediaUrl (some u) = u) ∧
    (∀ u, u ≠ "" →
      (jsIncludes u "cdn.discordapp.com" = true ∨ jsIncludes u "media.discordapp.net" = true) →
      proxyMediaUrl (some u) = u) ∧
    (∀ u, u ≠ "" →
      jsStartsWith u "/api/media/proxy" = false → jsStartsWith u "data:" = false →
      jsIncludes u "cdn.discordapp.com" = false → jsIncludes u "media.discordapp.net" = false →
      proxyMediaUrl (some u) = "/api/media/proxy?url=" ++ encodeURIComponent u) := by
  have hfix : ∀ u : String, u ≠ "" →
      (jsStartsWith u "/api/media/proxy" || jsStartsWith u "data:") = true →
      proxyMediaUrl (some u) = u := by
    intro u h0 h1
    simp [proxyMediaUrl, h0, h1]
  have hcdn : ∀ u : String, u ≠ "" →
      (jsIncludes u "cdn.discordapp.com" || jsIncludes u "media.discordapp.net") = true →
      proxyMediaUrl (some u) = u := by
    intro u h0 h2
    by_cases h1 : (jsStartsWith u "/api/media/proxy" || jsStartsWith u "data:") = true
    · exact hfix u h0 h1
    · simp [proxyMediaUrl, h0, h1, h2]
  have hrw : ∀ u : String, u ≠ "" →
      (jsStartsWith u "/api/media/proxy" || jsStartsWith u "data:") = false →
      (jsIncludes u "cdn.discordapp.com" || jsIncludes u "media.discordapp.net") = false →
      proxyMediaUrl (some u) = "/api/media/proxy?url=" ++ encodeURIComponent u := by
    intro u h0 h1 h2
    simp [proxyMediaUrl, h0, h1, h2]
  refine ⟨rfl, by simp [proxyMediaUrl], ?_, ?_, ?_, ?_⟩
  · intro u
    match u with
    | none => simp [proxyMediaUrl]
    | some u =>
        by_cases h0 : u = ""
        · subst h0
          simp [proxyMediaUrl]
        · by_cases h1 : (jsStartsWith u "/api/media/proxy" || jsStartsWith u "data:") = true
          · rw [hfix u h0 h1, hfix u h0 h1]
          · by_cases h2 :
              (jsIncludes u "cdn.discordapp.com" || jsIncludes u "media.discordapp.net") = true
            · rw [hcdn u h0 h2, hcdn u h0 h2]
            · rw [hrw u h0 (by simpa using h1) (by simpa using h2)]
              exact hfix _ (rewritten_ne_empty _)
                (by rw [Bool.or_eq_true]; exact Or.inl (rewritten_isProxied _))
  · intro u h0 h1
    exact hfix u h0 (by rw [Bool.or_eq_true]; exact h1)
  · intro u h0 h2
    exact hcdn u h0 (by rw [Bool.or_eq_true]; exact h2)
  · intro u h0 h1 h2 h3 h4
    exact hrw u h0 (by rw [h1, h2]; rfl) (by rw [h3, h4]; rfl)

/-- Witness for C10 at concrete URLs: an already-proxied URL, a Discord CDN
URL and an external URL. -/
theorem proxyMediaUrl_spec_witness :
    proxyMediaUrl (some "/api/media/proxy?url=x") = "/api/media/proxy?url=x" ∧
    proxyMediaUrl (some "https://cdn.discordapp.com/a.png") =
      "https://cdn.discordapp.com/a.png" ∧
    proxyMediaUrl (some "https://example.com/a.png") =
      "/api/media/proxy?url=" ++ encodeURIComponent "https://example.com/a.png" :=
  ⟨proxyMediaUrl_spec.2.2.2.1 _ (by decide) (Or.inl (by decide)),
   proxyMediaUrl_spec.2.2.2.2.1 _ (by decide) (Or.inl (by decide)),
   proxyMediaUrl_spec.2.2.2.2.2 _ (by decide) (by decide) (by decide) (by decide) (by decide)⟩

/-! ## Theme game staging -/

/-- C2 (counterexample): on a concrete start response whose theme_url is a
video asset, the stage-1 state already holds that URL, and the video
rendered after reveal sources exactly the URL delivered by the stage-1
start payload — so the video asset URL is not absent from the stage-1
response payload. -/
theorem theme_video_url_in_start_payload :
    (startGameOpening exThemeResp "normal").currentStage = 1 ∧
    (startGameOpening exThemeResp "normal").themeUrl = exThemeResp.theme_url ∧
    mediaElement (revealHint (startGameOpening exThemeResp "normal") exRevealResp) =
      .video (proxyMediaUrl (some exThemeResp.theme_url)) :=
  ⟨rfl, rfl, rfl⟩

/-- C2 (amended): at stage 1 the page renders an audio element only and the
video element appears only after reveal advances the session to stage 2;
the media URL used by that video, however, is the theme_url already
delivered in the stage-1 start payload, which revealHint leaves
unchanged. -/
theorem theme_stage_render (resp : ThemeStartResponse) (diff : String)
    (rev : RevealResponse) (h1 : resp.current_stage = 1) (h2 : rev.current_stage = 2) :
    (startGameOpening resp diff).themeUrl = resp.theme_url ∧
    mediaElement (startGameOpening resp diff) =
      .audio (proxyMediaUrl (some resp.theme_url)) ∧
    mediaElement (revealHint (startGameOpening resp diff) rev) =
      .video (proxyMediaUrl (some resp.theme_url)) ∧
    (revealHint (startGameOpening resp diff) rev).themeUrl = resp.theme_url := by
  refine ⟨rfl, ?_, ?_, rfl⟩
  · simp [mediaElement, startGameOpening, h1]
  · simp [mediaElement, revealHint, startGameOpening, h2]

/-- Witness for the amended C2 statement at the concrete responses. -/
theorem theme_stage_render_witness :
    (startGameOpening exThemeResp "normal").themeUrl = exThemeResp.theme_url ∧
    mediaElement (startGameOpening exThemeResp "normal") =
      .audio (proxyMediaUrl (some exThemeResp.theme_url)) ∧
    mediaElement (revealHint (startGameOpening exThemeResp "normal") exRevealResp) =
      .video (proxyMediaUrl (some exThemeResp.theme_url)) ∧
    (revealHint (startGameOpening exThemeResp "normal") exRevealResp).themeUrl =
      exThemeResp.theme_url :=
  theme_stage_render exThemeResp "normal" exRevealResp rfl rfl

/-! ## Staged reveal invariants -/

/-- C5: the stage pointer never exceeds the stage count (5 in a five-stage
game): revealStage and navigateStage preserve the bound; a revealStage call
once every stage is revealed is a no-op returning the state unchanged
rather than an error; navigateStage consumes neither attempts nor stages;
and concretely, five revealStage calls from the fresh five-stage state land
on stage 5 and a sixth call changes nothing. -/
theorem staged_reveal_invariants (s : StagedState) (n : Nat)
    (hrev : s.revealedStages ≤ s.totalStages)
    (hcur : s.currentStage ≤ s.totalStages) :
    ((revealStage s).revealedStages ≤ s.totalStages ∧
      (revealStage s).currentStage ≤ s.totalStages) ∧
    (s.revealedStages = s.totalStages → revealStage s = s) ∧
    ((navigateStage s n).attemptsRemaining = s.attemptsRemaining ∧
      (navigateStage s n).revealedStages = s.revealedStages ∧
      (n ≤ s.revealedStages → (navigateStage s n).currentStage ≤ s.totalStages)) ∧
    ((revealStage^[5] initialStagedState).revealedStages = 5 ∧
      (revealStage^[5] initialStagedState).currentStage = 5 ∧
      revealStage (revealStage^[5] initialStagedState) = revealStage^[5] initialStagedState) := by
  refine ⟨?_, ?_, ?_, by decide⟩
  · unfold revealStage
    by_cases h : s.revealedStages < s.totalStages
    · simp [h]
      omega
    · simp [h]
      exact ⟨hrev, hcur⟩
  · intro h
    unfold revealStage
    simp [h]
  · unfold navigateStage
    by_cases h : n ≤ s.revealedStages
    · simp [h]
      omega
    · simp [h]

/-- Witness for C5 at a concrete mid-game state: three of five stages
revealed, navigating back to stage 2. -/
theorem staged_reveal_invariants_witness :
    (((revealStage { initialStagedState with revealedStages := 3, currentStage := 3 }).revealedStages ≤ 5 ∧
      (revealStage { initialStagedState with revealedStages := 3, currentStage := 3 }).currentStage ≤ 5) ∧
    ({ initialStagedState with revealedStages := 3, currentStage := 3 }.revealedStages = 5 →
      revealStage { initialStagedState with revealedStages := 3, currentStage := 3 } =
        { initialStagedState with revealedStages := 3, currentStage := 3 }) ∧
    ((navigateStage { initialStagedState with revealedStages := 3, currentStage := 3 } 2).attemptsRemaining =
        { initialStagedState with revealedStages := 3, currentStage := 3 }.attemptsRemaining ∧
      (navigateStage { initialStagedState with revealedStages := 3, currentStage := 3 } 2).revealedStages =
        { initialStagedState with revealedStages := 3, currentStage := 3 }.revealedStages ∧
      (2 ≤ { initialStagedState with revealedStages := 3, currentStage := 3 }.revealedStages →
        (navigateStage { initialStagedState with revealedStages := 3, currentStage := 3 } 2).currentStage ≤ 5)) ∧
    ((revealStage^[5] initialStagedState).revealedStages = 5 ∧
      (revealStage^[5] initialStagedState).currentStage = 5 ∧
      revealStage (revealStage^[5] initialStagedState) = revealStage^[5] initialStagedState)) :=
  staged_reveal_invariants { initialStagedState with revealedStages := 3, currentStage := 3 } 2
    (by decide) (by decide)

/-! ## Dual-field single shot -/

/-- C6: a Guess Character game is won exactly when both the character name
and the anime name match the target under normalized equality — a guess
with only one field correct is never Complete-Won — and the single guess
always transitions the session to Complete. -/
theorem dual_field_win_requires_both (target : CharacterTarget) (c a : String)
    (s : CharGameState) :
    ((guess_character target c a).is_won = true ↔
      (normEq c target.characterName = true ∧ normEq a target.animeTitle = true)) ∧
    (guess_character target c a).is_complete = true ∧
    (applyGuessResult s (guess_character target c a)).isComplete = true ∧
    ((applyGuessResult s (guess_character target c a)).isWon = true ↔
      (normEq c target.characterName = true ∧ normEq a target.animeTitle = true)) ∧
    (∀ rs : List CharacterGuessResult,
      (multiCardOutcome rs).1 = true ∧
      ((multiCardOutcome rs).2 = true ↔ ∀ r ∈ rs, r.is_won = true)) := by
  refine ⟨?_, rfl, rfl, ?_, ?_⟩
  · simp [guess_character, Bool.and_eq_true]
  · simp [applyGuessResult, guess_character, Bool.and_eq_true]
  · intro rs
    refine ⟨rfl, ?_⟩
    simp [multiCardOutcome, List.countP_eq_length]

/-! ## Ordinal attribute comparison -/

/-- C4: for entity records in which a given ordinal attribute is present,
the comparator's verdicts for the two call orders are opposite in
direction — one reports target-higher exactly when the other reports
target-lower — and both report exact exactly when the two values are
equal. -/
theorem compare_ordinal_antisymmetric (f : EntityRecord → Option Nat)
    (a b : EntityRecord) (x y : Nat) (ha : f a = some x) (hb : f b = some y) :
    (compareOrdinal (f a) (f b) = .targetHigher ↔
      compareOrdinal (f b) (f a) = .targetLower) ∧
    (compareOrdinal (f a) (f b) = .targetLower ↔
      compareOrdinal (f b) (f a) = .targetHigher) ∧
    ((compareOrdinal (f a) (f b) = .exact ∧ compareOrdinal (f b) (f a) = .exact) ↔
      x = y) := by
  rw [ha, hb]
  rcases lt_trichotomy x y with h | h | h
  · have hxy : ¬ x = y := Nat.ne_of_lt h
    have hyx : ¬ y = x := Nat.ne_of_gt h
    have hny : ¬ y < x := Nat.not_lt_of_gt h
    simp [compareOrdinal, hxy, hyx, h, hny]
  · subst h
    simp [compareOrdinal]
  · have hxy : ¬ x = y := Nat.ne_of_gt h
    have hyx : ¬ y = x := Nat.ne_of_lt h
    have hnx : ¬ x < y := Nat.not_lt_of_gt h
    simp [compareOrdinal, hxy, hyx, h, hnx]

/-- Witness for C4 at two concrete records whose year attribute is
present. -/
theorem compare_ordinal_antisymmetric_witness :
    (compareOrdinal exRecordA.year exRecordB.year = .targetHigher ↔
      compareOrdinal exRecordB.year exRecordA.year = .targetLower) ∧
    (compareOrdinal exRecordA.year exRecordB.year = .targetLower ↔
      compareOrdinal exRecordB.year exRecordA.year = .targetHigher) ∧
    ((compareOrdinal exRecordA.year exRecordB.year = .exact ∧
      compareOrdinal exRecordB.year exRecordA.year = .exact) ↔ 2010 = 2016) :=
  compare_ordinal_antisymmetric (fun e => e.year) exRecordA exRecordB 2010 2016 rfl rfl

/-! ## Sampler termination -/

/-- The sampler loop with only invalid candidates uses exactly its fuel. -/
theorem sampleLoop_all_invalid {α : Type} (draw : Nat → α) (valid : α → Bool)
    (h : ∀ i, valid (draw i) = false) :
    ∀ n used, sampleLoop draw valid n used = .exhausted (used + n) := by
  intro n
  induction n with
  | zero => intro used; simp [sampleLoop]
  | succ m ih =>
      intro used
      rw [sampleLoop, h used, ih (used + 1)]
      have harith : used + 1 + m = used + (m + 1) := by omega
      simp [harith]

/-- C7: when no drawn candidate satisfies the asset contract, sample
terminates and returns exhaustion after exactly the fixed attempt ceiling
of draws. -/
theorem sampler_bounded_exhaustion {α : Type} (draw : Nat → α) (valid : α → Bool)
    (h : ∀ i, valid (draw i) = false) :
    sample draw valid = .exhausted sampleAttemptCeiling := by
  unfold sample
  rw [sampleLoop_all_invalid draw valid h sampleAttemptCeiling 0]
  simp

/-- Witness for C7: a draw stream of a single candidate that never
validates exhausts after exactly 5 draws. -/
theorem sampler_bounded_exhaustion_witness :
    sample (fun _ => 0) (fun _ => false) = .exhausted 5 :=
  sampler_bounded_exhaustion (fun _ => 0) (fun _ => false) (fun _ => rfl)

end Geminya
